import Mathlib

/-!
Verification of the jitter frame synthesis engine.

A shallow embedding of the core of the "hand-wiggled line art" application:
canvas sizing (`setupCanvas`), coherent noise generation (`createNoiseMap`),
line-mask extraction (brightness and edge modes), backward-mapped frame
synthesis (`generateJitterFrames`), the playback scheduler tick, and the
export entry point (`handleExport`).

JavaScript numbers are modelled as exact rationals (`ℚ`), pixel channel
values as naturals, and `Math.round` as `round` (`⌊x + 1/2⌋`, which matches
JavaScript's round-half-up).  Randomness (`Math.random`) is modelled by
quantifying over the functions that supply the drawn values, so theorems
hold for every possible sequence of draws.
-/

namespace Wiggle

/-- An 8-bit RGB color triple (the result of `hexToRgb` on a `#rrggbb`
string, and the color part of one RGBA pixel). -/
structure RGB where
  r : ℕ
  g : ℕ
  b : ℕ
deriving DecidableEq, Repr

/-- One RGBA destination pixel as written into an `ImageData` buffer. -/
structure RGBA where
  r : ℕ
  g : ℕ
  b : ℕ
  a : ℕ
deriving DecidableEq, Repr

/-- The two line-detection policies of `settings.detectionMode`. -/
inductive DetectionMode where
  | brightness
  | edge
deriving DecidableEq, Repr

/-- The `ProcessingSettings` record.  `lineColor`/`bgColor` are modelled as
the RGB triples their hex strings decode to. -/
structure ProcessingSettings where
  threshold : ℚ
  jitterAmount : ℚ
  jitterSpeed : ℚ
  frameCount : ℕ
  lineColor : RGB
  bgColor : RGB
  scale : ℚ
  useOriginalColors : Bool
  detectionMode : DetectionMode

/-- The `DEFAULT_SETTINGS` record from `constants.ts`. -/
def DEFAULT_SETTINGS : ProcessingSettings where
  threshold := 350
  jitterAmount := 3
  jitterSpeed := 120
  frameCount := 5
  lineColor := ⟨0, 0, 0⟩
  bgColor := ⟨255, 255, 255⟩
  scale := 1
  useOriginalColors := true
  detectionMode := .edge

/-- The source pixel buffer obtained from `ctx.getImageData` after the
source image is drawn at the output resolution: a width, a height, and the
RGB value of each pixel (reads are always guarded in bounds by the code, so
the pixel map is total). -/
structure Image where
  width : ℕ
  height : ℕ
  pixel : ℕ → ℕ → RGB

/-- Canvas pixel data comes from a `Uint8ClampedArray`, so every channel is
at most 255. -/
def Image.Valid (img : Image) : Prop :=
  ∀ x y, (img.pixel x y).r ≤ 255 ∧ (img.pixel x y).g ≤ 255 ∧
    (img.pixel x y).b ≤ 255

/-! ## The function `setupCanvas` -/

/-- The function `setupCanvas` from `imageProcessing.ts`: cap the width at 800 (scaling
the height by the same ratio), then multiply both by `scale` and floor. -/
def setupCanvas (imgWidth imgHeight : ℕ) (scale : ℚ) : ℤ × ℤ :=
  let maxWidth : ℚ := 800
  let width : ℚ := imgWidth
  let height : ℚ := imgHeight
  let width2 : ℚ := if width > maxWidth then maxWidth else width
  let height2 : ℚ := if width > maxWidth then height * (maxWidth / width) else height
  (⌊width2 * scale⌋, ⌊height2 * scale⌋)

/-! ## The function `createNoiseMap` -/

/-- The fixed lattice cell size of `createNoiseMap`. -/
def gridSize : ℕ := 20

/-- Number of lattice columns: `Math.ceil(width / gridSize) + 1`
(for naturals, `⌈w / 20⌉ = (w + 19) / 20`). -/
def noiseCols (width : ℕ) : ℕ := (width + (gridSize - 1)) / gridSize + 1

/-- Number of lattice rows: `Math.ceil(height / gridSize) + 1`. -/
def noiseRows (height : ℕ) : ℕ := (height + (gridSize - 1)) / gridSize + 1

/-- The four flattened lattice indices `createNoiseMap` reads for output
pixel `(x, y)`: `gyi*cols + gxi`, `gyi*cols + (gxi+1)`,
`(gyi+1)*cols + gxi`, `(gyi+1)*cols + (gxi+1)` with `gxi = ⌊x/20⌋`,
`gyi = ⌊y/20⌋`. -/
def noiseLatticeReads (width x y : ℕ) : List ℕ :=
  let cols := noiseCols width
  let gxi := x / gridSize
  let gyi := y / gridSize
  [gyi * cols + gxi, gyi * cols + (gxi + 1),
   (gyi + 1) * cols + gxi, (gyi + 1) * cols + (gxi + 1)]

/-- The function `createNoiseMap` from `imageProcessing.ts`, parameterised by the random
lattice `grid` (the `Math.random` draws, flattened row-major): bilinear
interpolation of the four enclosing lattice corners at every output
pixel. -/
def createNoiseMap (width : ℕ) (grid : ℕ → ℚ) (x y : ℕ) : ℚ :=
  let cols := noiseCols width
  let gx : ℚ := (x : ℚ) / (gridSize : ℚ)
  let gy : ℚ := (y : ℚ) / (gridSize : ℚ)
  let gxi := x / gridSize
  let gyi := y / gridSize
  let tx : ℚ := gx - (gxi : ℚ)
  let ty : ℚ := gy - (gyi : ℚ)
  let c00 := grid (gyi * cols + gxi)
  let c10 := grid (gyi * cols + (gxi + 1))
  let c01 := grid ((gyi + 1) * cols + gxi)
  let c11 := grid ((gyi + 1) * cols + (gxi + 1))
  let top := c00 + (c10 - c00) * tx
  let bottom := c01 + (c11 - c01) * tx
  top + (bottom - top) * ty

/-! ## Line mask extraction (`generateJitterFrames`, step 2) -/

/-- The luma of a pixel, `0.299*r + 0.587*g + 0.114*b`, in exact rational
arithmetic. -/
def luma (p : RGB) : ℚ :=
  0.299 * (p.r : ℚ) + 0.587 * (p.g : ℚ) + 0.114 * (p.b : ℚ)

/-- Brightness mode: a pixel is a line pixel iff its luma is strictly below
the threshold. -/
def brightnessMask (img : Image) (threshold : ℚ) (x y : ℕ) : Bool :=
  decide (luma (img.pixel x y) < threshold)

/-- Sum over R, G, B of the absolute channel differences between two
pixels (`Math.abs(r - rx) + Math.abs(g - gx) + Math.abs(b - bx)`). -/
def channelDiffSum (p q : RGB) : ℕ :=
  ((p.r : ℤ) - (q.r : ℤ)).natAbs + ((p.g : ℤ) - (q.g : ℤ)).natAbs +
    ((p.b : ℤ) - (q.b : ℤ)).natAbs

/-- The sum `diffX + diffY`: absolute RGB difference against the right neighbor
plus the one against the bottom neighbor. -/
def edgeTotalDiff (img : Image) (x y : ℕ) : ℕ :=
  channelDiffSum (img.pixel x y) (img.pixel (x + 1) y) +
    channelDiffSum (img.pixel x y) (img.pixel x (y + 1))

/-- Edge mode: guarded by `x < width - 1 && y < height - 1` (over the
integers, so `x + 1 < width` and `y + 1 < height`); inside the guard, the
pixel is a line pixel iff `totalDiff > max 0 (500 - threshold)`.
`isLine` starts `false`, so guarded-out pixels stay unmarked. -/
def edgeMask (img : Image) (threshold : ℚ) (x y : ℕ) : Bool :=
  if x + 1 < img.width ∧ y + 1 < img.height then
    decide ((edgeTotalDiff img x y : ℚ) > max 0 (500 - threshold))
  else false

/-- The precomputed line mask: one bit per source pixel, chosen by the
active detection mode. -/
def lineMask (img : Image) (s : ProcessingSettings) (x y : ℕ) : Bool :=
  match s.detectionMode with
  | .edge => edgeMask img s.threshold x y
  | .brightness => brightnessMask img s.threshold x y

/-! ## Frame synthesis (`generateJitterFrames`, step 3) -/

/-- One synthesized RGBA frame: its dimensions and the pixel written at
each destination coordinate. -/
structure Frame where
  width : ℕ
  height : ℕ
  pixel : ℕ → ℕ → RGBA

/-- The body of the destination-pixel loop of `generateJitterFrames`,
parameterised by the values the randomness supplies at this pixel:
`noiseValX`/`noiseValY` are the two noise-map samples, and `randX`/`randY`
are the raw `Math.random()` draws feeding the high-frequency jitter
`(rand - 0.5) * 0.3`. -/
def generateFramePixel (img : Image) (s : ProcessingSettings)
    (noiseValX noiseValY randX randY : ℚ) (x y : ℕ) : RGBA :=
  let hfJitterX := (randX - 0.5) * 0.3
  let hfJitterY := (randY - 0.5) * 0.3
  let dx := noiseValX * s.jitterAmount + hfJitterX * s.jitterAmount
  let dy := noiseValY * s.jitterAmount + hfJitterY * s.jitterAmount
  let srcX : ℤ := round ((x : ℚ) - dx)
  let srcY : ℤ := round ((y : ℚ) - dy)
  if 0 ≤ srcX ∧ srcX < (img.width : ℤ) ∧ 0 ≤ srcY ∧ srcY < (img.height : ℤ) then
    if lineMask img s srcX.toNat srcY.toNat = true then
      if s.useOriginalColors then
        let p := img.pixel srcX.toNat srcY.toNat
        ⟨p.r, p.g, p.b, 255⟩
      else
        ⟨s.lineColor.r, s.lineColor.g, s.lineColor.b, 255⟩
    else
      ⟨s.bgColor.r, s.bgColor.g, s.bgColor.b, 255⟩
  else
    ⟨s.bgColor.r, s.bgColor.g, s.bgColor.b, 255⟩

/-- One frame of `generateJitterFrames`: given the two per-frame noise
maps `mapX`/`mapY` and the per-pixel high-frequency draw sources
`randX`/`randY`, every destination pixel is produced by
`generateFramePixel`. -/
def generateFrame (img : Image) (s : ProcessingSettings)
    (mapX mapY randX randY : ℕ → ℕ → ℚ) : Frame where
  width := img.width
  height := img.height
  pixel := fun x y =>
    generateFramePixel img s (mapX x y) (mapY x y) (randX x y) (randY x y) x y

/-- The randomness consumed by one frame: two fresh noise lattices and the
per-pixel high-frequency `Math.random()` draws. -/
structure FrameRandomness where
  gridX : ℕ → ℚ
  gridY : ℕ → ℚ
  randX : ℕ → ℕ → ℚ
  randY : ℕ → ℕ → ℚ

/-- The function `generateJitterFrames` (steps 2–3): compute the line mask once, then
produce `settings.frameCount` frames, each from two fresh noise maps and
fresh per-pixel jitter draws, supplied by `rng` per frame index. -/
def generateJitterFrames (img : Image) (s : ProcessingSettings)
    (rng : ℕ → FrameRandomness) : List Frame :=
  (List.range s.frameCount).map fun f =>
    generateFrame img s
      (createNoiseMap img.width (rng f).gridX)
      (createNoiseMap img.width (rng f).gridY)
      (rng f).randX (rng f).randY

/-- Direct compositing of the mask over source/fixed colors with no
displacement, as the spec describes the zero-jitter output: pixel `(x,y)`
is the line color (original or fixed) when `mask[y,x]` is set, else the
background color, always opaque. -/
def directComposite (img : Image) (s : ProcessingSettings) : Frame where
  width := img.width
  height := img.height
  pixel := fun x y =>
    if lineMask img s x y = true then
      if s.useOriginalColors then
        ⟨(img.pixel x y).r, (img.pixel x y).g, (img.pixel x y).b, 255⟩
      else
        ⟨s.lineColor.r, s.lineColor.g, s.lineColor.b, 255⟩
    else
      ⟨s.bgColor.r, s.bgColor.g, s.bgColor.b, 255⟩

/-! ## Playback scheduler (`animate` in the app component) -/

/-- The mutable state of the animation loop: `frameIndex` starts at 0 and
`lastTime` starts at 0. -/
structure SchedulerState where
  frameIndex : ℕ
  lastTime : ℚ
deriving DecidableEq, Repr

/-- The initial scheduler state (`frameIndex = 0`, `lastTime = 0`). -/
def initScheduler : SchedulerState := ⟨0, 0⟩

/-- One `animate(time)` tick: if `time - lastTime > jitterSpeed`, blit the
current frame (returned as `some frameIndex`), advance
`frameIndex = (frameIndex + 1) % frameCount` and set `lastTime = time`;
otherwise draw nothing and leave the state unchanged. -/
def tick (jitterSpeed : ℚ) (frameCount : ℕ) (st : SchedulerState)
    (time : ℚ) : SchedulerState × Option ℕ :=
  if time - st.lastTime > jitterSpeed then
    (⟨(st.frameIndex + 1) % frameCount, time⟩, some st.frameIndex)
  else
    (st, none)

/-! ## Export entry point (`handleExport` in the app component) -/

/-- The app run status values used by `handleExport`. -/
inductive AppStatus where
  | IDLE
  | PROCESSING
  | EXPORTING
  | ERROR
deriving DecidableEq, Repr

/-- The observable effects of one `handleExport` call: the `setStatus`
calls it makes in order, whether it alerted an error to the user, and
whether it started the encoder (`gif.render()`). -/
structure ExportOutcome where
  statusSets : List AppStatus
  alerted : Bool
  renderStarted : Bool
deriving DecidableEq, Repr

/-- Control flow of `handleExport`: return at once when the frame list is
empty or the canvas is missing; otherwise set status EXPORTING, then fail
with an alert and status IDLE when `window.GIF` or the worker blob URL is
unavailable; otherwise configure the encoder and start rendering. -/
def handleExport (framesLen : ℕ) (canvasPresent gifAvailable workerReady : Bool) :
    ExportOutcome :=
  if framesLen = 0 ∨ canvasPresent = false then
    ⟨[], false, false⟩
  else if gifAvailable = false then
    ⟨[AppStatus.EXPORTING, AppStatus.IDLE], true, false⟩
  else if workerReady = false then
    ⟨[AppStatus.EXPORTING, AppStatus.IDLE], true, false⟩
  else
    ⟨[AppStatus.EXPORTING], false, true⟩

/-! ## Concrete instances used to witness the theorems -/

/-- A 2×2 all-black source buffer. -/
def blackImage : Image := ⟨2, 2, fun _ _ => ⟨0, 0, 0⟩⟩

/-- A 1×1 all-white source buffer. -/
def whiteImage : Image := ⟨1, 1, fun _ _ => ⟨255, 255, 255⟩⟩

/-- Default settings switched to brightness mode. -/
def settingsBrightness : ProcessingSettings :=
  { DEFAULT_SETTINGS with detectionMode := .brightness }

/-- Brightness mode at threshold exactly 255. -/
def settingsT255 : ProcessingSettings :=
  { DEFAULT_SETTINGS with threshold := 255, detectionMode := .brightness }

/-- Brightness mode at threshold 256. -/
def settingsT256 : ProcessingSettings :=
  { DEFAULT_SETTINGS with threshold := 256, detectionMode := .brightness }

/-- Default settings with the jitter amount set to zero and one frame. -/
def settingsZeroJitter : ProcessingSettings :=
  { DEFAULT_SETTINGS with jitterAmount := 0, frameCount := 1 }

/-- A constant-zero per-pixel value source. -/
def zeroMap : ℕ → ℕ → ℚ := fun _ _ => 0

/-- A constant-one-half per-pixel value source (the mean `Math.random`
draw). -/
def halfMap : ℕ → ℕ → ℚ := fun _ _ => 0.5

/-- A fixed randomness bundle: all lattice samples 0, all uniform draws
1/2. -/
def constRandomness : FrameRandomness := ⟨fun _ => 0, fun _ => 0, halfMap, halfMap⟩

/-- The default frame used with `List.getD`. -/
def emptyFrame : Frame := ⟨0, 0, fun _ _ => ⟨0, 0, 0, 0⟩⟩

/-! ## Theorems -/

/-- C9: for a source of natural size `(w, h)` and any `scale > 0`, the
output dimensions are `⌊min(w, 800)·scale⌋` and `⌊h'·scale⌋`, where `h'`
is `h` when `w ≤ 800` and `h·(800/w)` otherwise. -/
theorem setupCanvas_dimensions (w h : ℕ) (scale : ℚ) (hs : 0 < scale) :
    setupCanvas w h scale =
      (⌊min (w : ℚ) 800 * scale⌋,
       ⌊(if (w : ℚ) ≤ 800 then (h : ℚ) else (h : ℚ) * (800 / (w : ℚ))) * scale⌋) := by
  simp only [setupCanvas]
  by_cases hw : (w : ℚ) > 800
  · rw [if_pos hw, if_pos hw, if_neg (not_le.mpr hw), min_eq_right (le_of_lt hw)]
  · rw [if_neg hw, if_neg hw, if_pos (not_lt.mp hw), min_eq_left (not_lt.mp hw)]

theorem setupCanvas_dimensions_witness :
    (0 : ℚ) < 1 / 2 ∧
      setupCanvas 10 10 (1 / 2) =
        (⌊min ((10 : ℕ) : ℚ) 800 * (1 / 2)⌋,
         ⌊(if ((10 : ℕ) : ℚ) ≤ 800 then ((10 : ℕ) : ℚ)
           else ((10 : ℕ) : ℚ) * (800 / ((10 : ℕ) : ℚ))) * (1 / 2)⌋) :=
  ⟨by norm_num, setupCanvas_dimensions 10 10 (1 / 2) (by norm_num)⟩

/-- C7: the frame sequence has length exactly `settings.frameCount`, and
every frame's width and height are the output dimensions (here the widths
map to `frameCount` copies of the output width, heights likewise). -/
theorem generateJitterFrames_length_and_dims (img : Image)
    (s : ProcessingSettings) (rng : ℕ → FrameRandomness) :
    (generateJitterFrames img s rng).length = s.frameCount ∧
      (generateJitterFrames img s rng).map Frame.width =
        List.replicate s.frameCount img.width ∧
      (generateJitterFrames img s rng).map Frame.height =
        List.replicate s.frameCount img.height := by
  refine ⟨by simp [generateJitterFrames], ?_, ?_⟩ <;>
    · rw [List.eq_replicate_iff]
      constructor
      · simp [generateJitterFrames]
      · intro b hb
        simp only [generateJitterFrames, List.map_map, List.mem_map,
          Function.comp] at hb
        obtain ⟨f, -, rfl⟩ := hb
        rfl

/-- C2: in brightness mode, a source pixel's mask bit is set iff
`0.299·R + 0.587·G + 0.114·B < threshold` (strictly). -/
theorem brightness_mask_iff_luma_lt (img : Image) (s : ProcessingSettings)
    (hmode : s.detectionMode = DetectionMode.brightness) (x y : ℕ)
    (hx : x < img.width) (hy : y < img.height) :
    lineMask img s x y = true ↔ luma (img.pixel x y) < s.threshold := by
  simp [lineMask, hmode, brightnessMask]

theorem brightness_mask_iff_luma_lt_witness :
    settingsBrightness.detectionMode = DetectionMode.brightness ∧
      0 < blackImage.width ∧ 0 < blackImage.height ∧
      (lineMask blackImage settingsBrightness 0 0 = true ↔
        luma (blackImage.pixel 0 0) < settingsBrightness.threshold) :=
  ⟨rfl, by decide, by decide,
    brightness_mask_iff_luma_lt blackImage settingsBrightness rfl 0 0
      (by decide) (by decide)⟩

/-- C4: in edge mode a pixel can be marked only when both its right and
bottom neighbors are in bounds (so the final row and final column are
always unmarked), and a pixel with both neighbors is marked iff
`diffX + diffY > max 0 (500 - threshold)` (strictly). -/
theorem edge_mask_spec (img : Image) (s : ProcessingSettings)
    (hmode : s.detectionMode = DetectionMode.edge) (x y : ℕ)
    (hx : x < img.width) (hy : y < img.height) :
    (lineMask img s x y = true → x + 1 < img.width ∧ y + 1 < img.height) ∧
      (x + 1 < img.width → y + 1 < img.height →
        (lineMask img s x y = true ↔
          ((edgeTotalDiff img x y : ℚ) > max 0 (500 - s.threshold)))) := by
  have hlm : lineMask img s x y = edgeMask img s.threshold x y := by
    simp [lineMask, hmode]
  constructor
  · intro hmark
    rw [hlm] at hmark
    unfold edgeMask at hmark
    by_contra hnb
    rw [if_neg hnb] at hmark
    exact Bool.false_ne_true hmark
  · intro h1 h2
    rw [hlm]
    unfold edgeMask
    rw [if_pos ⟨h1, h2⟩]
    simp

theorem edge_mask_spec_witness :
    DEFAULT_SETTINGS.detectionMode = DetectionMode.edge ∧
      0 < blackImage.width ∧ 0 < blackImage.height ∧
      ((lineMask blackImage DEFAULT_SETTINGS 0 0 = true →
          0 + 1 < blackImage.width ∧ 0 + 1 < blackImage.height) ∧
        (0 + 1 < blackImage.width → 0 + 1 < blackImage.height →
          (lineMask blackImage DEFAULT_SETTINGS 0 0 = true ↔
            ((edgeTotalDiff blackImage 0 0 : ℚ) >
              max 0 (500 - DEFAULT_SETTINGS.threshold))))) :=
  ⟨rfl, by decide, by decide,
    edge_mask_spec blackImage DEFAULT_SETTINGS rfl 0 0 (by decide) (by decide)⟩

/-- C5 counterexample: at threshold exactly 255 (which is ≥ 255), a pure
white pixel has luma exactly 255, the strict test `luma < threshold`
fails, and the pixel is left unmarked — so "any threshold ≥ 255 marks
every pixel" is false. -/
theorem brightness_threshold_255_white_unmarked :
    (255 : ℚ) ≤ settingsT255.threshold ∧
      settingsT255.detectionMode = DetectionMode.brightness ∧
      lineMask whiteImage settingsT255 0 0 = false := by
  refine ⟨le_refl _, rfl, ?_⟩
  simp only [lineMask, settingsT255, DEFAULT_SETTINGS, brightnessMask,
    whiteImage, luma, decide_eq_false_iff_not]
  norm_num

/-- C5 amended: in brightness mode, any threshold strictly greater than
255 marks every pixel (luma never exceeds 255 on 8-bit channels); at
threshold exactly 255 a pure-white pixel stays unmarked. -/
theorem brightness_threshold_gt_255_marks_all (img : Image) (hv : img.Valid)
    (s : ProcessingSettings) (hmode : s.detectionMode = DetectionMode.brightness)
    (ht : 255 < s.threshold) (x y : ℕ)
    (hx : x < img.width) (hy : y < img.height) :
    lineMask img s x y = true := by
  have hb := hv x y
  have h1 : ((img.pixel x y).r : ℚ) ≤ 255 := by exact_mod_cast hb.1
  have h2 : ((img.pixel x y).g : ℚ) ≤ 255 := by exact_mod_cast hb.2.1
  have h3 : ((img.pixel x y).b : ℚ) ≤ 255 := by exact_mod_cast hb.2.2
  have h4 : (0 : ℚ) ≤ ((img.pixel x y).r : ℚ) := by positivity
  have h5 : (0 : ℚ) ≤ ((img.pixel x y).g : ℚ) := by positivity
  have h6 : (0 : ℚ) ≤ ((img.pixel x y).b : ℚ) := by positivity
  simp only [lineMask, hmode, brightnessMask, decide_eq_true_eq, luma]
  nlinarith [h1, h2, h3, ht]

theorem brightness_threshold_gt_255_marks_all_witness :
    whiteImage.Valid ∧
      settingsT256.detectionMode = DetectionMode.brightness ∧
      (255 : ℚ) < settingsT256.threshold ∧
      0 < whiteImage.width ∧ 0 < whiteImage.height ∧
      lineMask whiteImage settingsT256 0 0 = true :=
  ⟨fun _ _ => ⟨le_refl 255, le_refl 255, le_refl 255⟩, rfl, by norm_num [settingsT256, DEFAULT_SETTINGS],
    by decide, by decide,
    brightness_threshold_gt_255_marks_all whiteImage
      (fun _ _ => ⟨le_refl 255, le_refl 255, le_refl 255⟩) settingsT256 rfl
      (by norm_num [settingsT256, DEFAULT_SETTINGS]) 0 0 (by decide) (by decide)⟩

/-- C6 counterexample: from the initial state (`frameIndex = 0`,
`lastTime = 0`), a first tick at timestamp 100 with the default
`jitterSpeed = 120` draws nothing and leaves the state unchanged — so
"the very first tick always draws, regardless of timestamp and
jitterSpeed" is false. -/
theorem first_tick_no_draw_at_small_time :
    (tick 120 5 initScheduler 100).2 = none ∧
      (tick 120 5 initScheduler 100).1 = initScheduler := by
  have h : ¬((100 : ℚ) - (0 : ℚ) > 120) := by norm_num
  refine ⟨?_, ?_⟩ <;> norm_num [tick, initScheduler]

/-- C6 amended: since `lastDrawTime` starts at 0, the first tick draws iff
the delivered timestamp strictly exceeds `jitterSpeed`; when it draws it
blits `FrameSequence[0]` and advances `frameIndex` to `1 % frameCount`,
otherwise it does nothing. -/
theorem first_tick_draws_iff (jitterSpeed frameCount time) :
    tick jitterSpeed frameCount initScheduler time =
      if time > jitterSpeed then (⟨1 % frameCount, time⟩, some 0)
      else (initScheduler, none) := by
  simp only [tick, initScheduler, sub_zero]

/-- C8: export invoked with an empty frame sequence returns at once —
no `setStatus` call, no alert, no render started — while an unavailable
encoder library or worker context is a signaled (alerted) failure. -/
theorem handleExport_empty_frames_noop (framesLen : ℕ)
    (canvasPresent gifAvailable workerReady : Bool)
    (hempty : framesLen = 0) :
    handleExport framesLen canvasPresent gifAvailable workerReady =
        ⟨[], false, false⟩ ∧
      (handleExport 1 true false true).alerted = true ∧
      (handleExport 1 true true false).alerted = true := by
  subst hempty
  refine ⟨?_, by decide, by decide⟩
  simp [handleExport]

theorem handleExport_empty_frames_noop_witness :
    (0 : ℕ) = 0 ∧
      (handleExport 0 true true true = ⟨[], false, false⟩ ∧
        (handleExport 1 true false true).alerted = true ∧
        (handleExport 1 true true false).alerted = true) :=
  ⟨rfl, handleExport_empty_frames_noop 0 true true true rfl⟩

/-- Collapsing a nested conditional with identical fallback branches into
a single conjunction guard. -/
theorem ite_ite_and {α : Sort _} {A M : Prop} [Decidable A] [Decidable M]
    (t e : α) : (if A then (if M then t else e) else e) = if A ∧ M then t else e := by
  by_cases hA : A
  · by_cases hM : M <;> simp [hA, hM]
  · simp [hA]

/-- C1: for any noise-field values and any high-frequency draws, the
destination pixel `(x, y)` is produced by backward mapping
`srcX = round(x - dx)`, `srcY = round(y - dy)` with
`dx = nx·jitterAmount + hx·jitterAmount` (`hx = (randX - 0.5)·0.3`, `dy`
symmetric): when `(srcX, srcY)` is in bounds and the line mask is set
there, the pixel gets the source RGB (original colors) or `lineColor`
(fixed) at alpha 255; otherwise it gets `bgColor` at alpha 255. -/
theorem generateFrame_pixel_rule (img : Image) (s : ProcessingSettings)
    (mapX mapY randX randY : ℕ → ℕ → ℚ) (x y : ℕ)
    (hx : x < img.width) (hy : y < img.height) :
    (generateFrame img s mapX mapY randX randY).pixel x y =
      (let hxj := (randX x y - 0.5) * 0.3
       let hyj := (randY x y - 0.5) * 0.3
       let dx := mapX x y * s.jitterAmount + hxj * s.jitterAmount
       let dy := mapY x y * s.jitterAmount + hyj * s.jitterAmount
       let srcX : ℤ := round ((x : ℚ) - dx)
       let srcY : ℤ := round ((y : ℚ) - dy)
       if 0 ≤ srcX ∧ srcX < (img.width : ℤ) ∧ 0 ≤ srcY ∧ srcY < (img.height : ℤ) ∧
           lineMask img s srcX.toNat srcY.toNat = true then
         if s.useOriginalColors = true then
           ⟨(img.pixel srcX.toNat srcY.toNat).r, (img.pixel srcX.toNat srcY.toNat).g,
            (img.pixel srcX.toNat srcY.toNat).b, 255⟩
         else ⟨s.lineColor.r, s.lineColor.g, s.lineColor.b, 255⟩
       else ⟨s.bgColor.r, s.bgColor.g, s.bgColor.b, 255⟩) := by
  simp only [generateFrame, generateFramePixel]
  rw [ite_ite_and]
  exact if_congr (by tauto) rfl rfl

theorem generateFrame_pixel_rule_witness :
    0 < blackImage.width ∧ 0 < blackImage.height ∧
      (generateFrame blackImage DEFAULT_SETTINGS zeroMap zeroMap halfMap halfMap).pixel 0 0 =
        (let hxj := (halfMap 0 0 - 0.5) * 0.3
         let hyj := (halfMap 0 0 - 0.5) * 0.3
         let dx := zeroMap 0 0 * DEFAULT_SETTINGS.jitterAmount + hxj * DEFAULT_SETTINGS.jitterAmount
         let dy := zeroMap 0 0 * DEFAULT_SETTINGS.jitterAmount + hyj * DEFAULT_SETTINGS.jitterAmount
         let srcX : ℤ := round ((0 : ℚ) - dx)
         let srcY : ℤ := round ((0 : ℚ) - dy)
         if 0 ≤ srcX ∧ srcX < (blackImage.width : ℤ) ∧ 0 ≤ srcY ∧
             srcY < (blackImage.height : ℤ) ∧
             lineMask blackImage DEFAULT_SETTINGS srcX.toNat srcY.toNat = true then
           if DEFAULT_SETTINGS.useOriginalColors = true then
             ⟨(blackImage.pixel srcX.toNat srcY.toNat).r,
              (blackImage.pixel srcX.toNat srcY.toNat).g,
              (blackImage.pixel srcX.toNat srcY.toNat).b, 255⟩
           else ⟨DEFAULT_SETTINGS.lineColor.r, DEFAULT_SETTINGS.lineColor.g,
             DEFAULT_SETTINGS.lineColor.b, 255⟩
         else ⟨DEFAULT_SETTINGS.bgColor.r, DEFAULT_SETTINGS.bgColor.g,
           DEFAULT_SETTINGS.bgColor.b, 255⟩) :=
  ⟨by decide, by decide,
    generateFrame_pixel_rule blackImage DEFAULT_SETTINGS zeroMap zeroMap
      halfMap halfMap 0 0 (by decide) (by decide)⟩

/-- With `jitterAmount = 0` both displacement terms vanish, so one
synthesized pixel equals the direct composite pixel, whatever the random
values were. -/
theorem generateFramePixel_zero_jitter (img : Image) (s : ProcessingSettings)
    (hj : s.jitterAmount = 0) (nx ny rx ry : ℚ) (x y : ℕ)
    (hx : x < img.width) (hy : y < img.height) :
    generateFramePixel img s nx ny rx ry x y = (directComposite img s).pixel x y := by
  simp only [generateFramePixel, directComposite, hj, mul_zero, add_zero,
    sub_zero, round_natCast, Int.toNat_natCast]
  rw [if_pos ⟨Int.natCast_nonneg x, by exact_mod_cast hx,
    Int.natCast_nonneg y, by exact_mod_cast hy⟩]

/-- C3: with `jitterAmount = 0`, every frame of the generated sequence is
pixel-identical (on the output domain) to directly compositing the mask
over source/fixed colors with no displacement, independently of every
random draw `rng`. -/
theorem zero_jitter_frames_deterministic (img : Image) (s : ProcessingSettings)
    (rng : ℕ → FrameRandomness) (hj : s.jitterAmount = 0) (i x y : ℕ)
    (hi : i < s.frameCount) (hx : x < img.width) (hy : y < img.height) :
    ((generateJitterFrames img s rng).getD i emptyFrame).pixel x y =
      (directComposite img s).pixel x y := by
  have hlen : i < (generateJitterFrames img s rng).length := by
    simpa [generateJitterFrames] using hi
  rw [List.getD_eq_getElem _ _ hlen]
  simp only [generateJitterFrames, List.getElem_map, List.getElem_range]
  exact generateFramePixel_zero_jitter img s hj _ _ _ _ x y hx hy

theorem zero_jitter_frames_deterministic_witness :
    settingsZeroJitter.jitterAmount = 0 ∧ 0 < settingsZeroJitter.frameCount ∧
      0 < blackImage.width ∧ 0 < blackImage.height ∧
      ((generateJitterFrames blackImage settingsZeroJitter
          (fun _ => constRandomness)).getD 0 emptyFrame).pixel 0 0 =
        (directComposite blackImage settingsZeroJitter).pixel 0 0 :=
  ⟨rfl, by decide, by decide, by decide,
    zero_jitter_frames_deterministic blackImage settingsZeroJitter
      (fun _ => constRandomness) rfl 0 0 0 (by decide) (by decide) (by decide)⟩

/-- A coordinate one past its lattice cell stays inside the padded
lattice: `⌊x/20⌋ + 1 < ⌈width/20⌉ + 1` for `x < width`. -/
theorem cell_succ_lt_noiseCols (x width : ℕ) (hw : 1 ≤ width) (hx : x < width) :
    x / gridSize + 1 < noiseCols width := by
  have h20 : 0 < gridSize := by norm_num [gridSize]
  have hstep : x / gridSize + 1 = (x + gridSize) / gridSize :=
    (Nat.add_div_right x h20).symm
  have hle : x + gridSize ≤ width + (gridSize - 1) := by
    have : gridSize = 20 := rfl
    omega
  have : (x + gridSize) / gridSize ≤ (width + (gridSize - 1)) / gridSize :=
    Nat.div_le_div_right hle
  unfold noiseCols
  omega

/-- Row/column coordinates inside the lattice give a flattened index
inside the lattice buffer. -/
theorem flat_index_lt (r c rows cols : ℕ) (hr : r < rows) (hc : c < cols) :
    r * cols + c < cols * rows := by
  calc r * cols + c < r * cols + cols := by omega
    _ = (r + 1) * cols := by ring
    _ ≤ rows * cols := Nat.mul_le_mul_right _ hr
    _ = cols * rows := Nat.mul_comm _ _

/-- C10: for `width, height ≥ 1` and every output pixel `(x, y)`, all four
lattice reads of `createNoiseMap` are inside the
`(⌈width/20⌉+1)·(⌈height/20⌉+1)` lattice (the `+1` covers the `gxi+1`,
`gyi+1` corners), and consequently the produced value depends only on
lattice samples at in-bounds indices. -/
theorem createNoiseMap_lattice_reads_safe (width height x y : ℕ)
    (hw : 1 ≤ width) (hh : 1 ≤ height) (hx : x < width) (hy : y < height) :
    (∀ i ∈ noiseLatticeReads width x y, i < noiseCols width * noiseRows height) ∧
      (∀ g₁ g₂ : ℕ → ℚ,
        (∀ i < noiseCols width * noiseRows height, g₁ i = g₂ i) →
        createNoiseMap width g₁ x y = createNoiseMap width g₂ x y) := by
  have hgx : x / gridSize + 1 < noiseCols width := cell_succ_lt_noiseCols x width hw hx
  have hgy : y / gridSize + 1 < noiseRows height := cell_succ_lt_noiseCols y height hh hy
  have h00 : y / gridSize * noiseCols width + x / gridSize <
      noiseCols width * noiseRows height :=
    flat_index_lt _ _ _ _ (by omega) (by omega)
  have h10 : y / gridSize * noiseCols width + (x / gridSize + 1) <
      noiseCols width * noiseRows height :=
    flat_index_lt _ _ _ _ (by omega) hgx
  have h01 : (y / gridSize + 1) * noiseCols width + x / gridSize <
      noiseCols width * noiseRows height :=
    flat_index_lt _ _ _ _ hgy (by omega)
  have h11 : (y / gridSize + 1) * noiseCols width + (x / gridSize + 1) <
      noiseCols width * noiseRows height :=
    flat_index_lt _ _ _ _ hgy hgx
  constructor
  · intro i hi
    simp only [noiseLatticeReads, List.mem_cons, List.not_mem_nil, or_false] at hi
    rcases hi with rfl | rfl | rfl | rfl
    · exact h00
    · exact h10
    · exact h01
    · exact h11
  · intro g₁ g₂ hg
    simp only [createNoiseMap]
    rw [hg _ h00, hg _ h10, hg _ h01, hg _ h11]

theorem createNoiseMap_lattice_reads_safe_witness :
    1 ≤ 25 ∧ 1 ≤ 25 ∧ 24 < 25 ∧ 24 < 25 ∧
      ((∀ i ∈ noiseLatticeReads 25 24 24, i < noiseCols 25 * noiseRows 25) ∧
        (∀ g₁ g₂ : ℕ → ℚ,
          (∀ i < noiseCols 25 * noiseRows 25, g₁ i = g₂ i) →
          createNoiseMap 25 g₁ 24 24 = createNoiseMap 25 g₂ 24 24)) :=
  ⟨by decide, by decide, by decide, by decide,
    createNoiseMap_lattice_reads_safe 25 25 24 24 (by decide) (by decide)
      (by decide) (by decide)⟩

end Wiggle
